import Mathlib

/-!
Verification of the artifact publish/retrieve workflow of
`PostprocessingServer/DVCWorker.py` (class `DVCWorker`).

The Python class is a sequential orchestration layer: every operation runs
external commands (`git`, `dvc`), copies files, and calls an S3-compatible
object store, aggregating outcomes into status dictionaries, occasionally
raising a Python exception instead.  The shallow embedding below makes the
interaction with the outside world explicit:

* `Env` is an oracle for the outside world: it answers every filesystem
  query (`Path.exists`), gives the outcome of every subprocess invocation
  (`subprocess.run`), of every file copy (`shutil.copy`) and of every object
  store call (head-bucket / create-bucket / upload / download).  Each
  operation is a pure function of the worker's fields and this oracle.
* Every operation returns `List Event × α`: the list of externally visible
  actions it performed, in order (subprocess invocations, directory
  creations, file copies, object-store calls, log lines), paired with its
  Python return value.  A Python method that can raise returns
  `Except PyExn α`; a method that catches everything returns `α` directly.
* Python status dictionaries (`{"status": ..., "message"/"stdout"/"stderr":
  ...}`) become `StatusDict`, with absent keys as `none`.
-/

namespace DVCSpec

/-- A resolved filesystem path, as its list of components
(`Path.parent` drops the last component, `Path.name` is the last). -/
abbrev FsPath := List String

/-- Rendering of a resolved path as the string the Python code embeds in
command lines and messages. -/
def pathStr (p : FsPath) : String := "/" ++ String.intercalate "/" p

/-- A Python status dictionary: the `"status"` entry plus the optional
`"message"`, `"stdout"` and `"stderr"` entries the methods use. -/
structure StatusDict where
  status : String
  message : Option String := none
  stdout : Option String := none
  stderr : Option String := none
deriving Repr, DecidableEq

/-- The Python exceptions the methods can raise to their caller:
`FileNotFoundError`, `subprocess.CalledProcessError` (from a `check=True`
run), or any other exception (e.g. an `OSError` from `shutil.copy`,
a boto3 error), carrying its `str(e)` rendering. -/
inductive PyExn where
  | fileNotFound (msg : String)
  | calledProcessError (cmd : List String) (returncode : Int) (stdout stderr : String)
  | otherError (msg : String)
deriving Repr, DecidableEq

/-- One externally visible action of the worker. -/
inductive Event where
  | run (cmd : List String) (cwd : FsPath)
  | mkdir (p : FsPath)
  | copyFile (src : FsPath) (dst : FsPath)
  | s3HeadBucket (bucket : String)
  | s3CreateBucket (bucket : String)
  | s3Upload (localPath : FsPath) (bucket : String) (key : String)
  | s3Download (bucket : String) (key : String) (localPath : FsPath)
  | log (msg : String)
deriving Repr, DecidableEq

/-- Outcome of one `subprocess.run` invocation: exit code zero with the
captured stdout/stderr, or a non-zero exit code (which a `check=True` call
turns into a `CalledProcessError`). -/
inductive SubprocResult where
  | ok (stdout stderr : String)
  | err (returncode : Int) (stdout stderr : String)
deriving Repr, DecidableEq

/-- Whether the subprocess exited with code zero. -/
def SubprocResult.isOk : SubprocResult → Bool
  | .ok _ _ => true
  | .err _ _ _ => false

/-- Outcome of `s3_client.head_bucket`: success, the `NoSuchBucket`
exception, or any other exception with its message. -/
inductive HeadBucketResult where
  | ok
  | noSuchBucket
  | otherExn (msg : String)
deriving Repr, DecidableEq

/-- The oracle for the outside world.  `copyFile`, `createBucket`,
`uploadFile` and `downloadFile` answer `none` for success and
`some msg` for the exception (message `msg`) the call raises. -/
structure Env where
  pathExists : FsPath → Bool
  run : List String → FsPath → SubprocResult
  copyFile : FsPath → FsPath → Option String
  headBucket : String → HeadBucketResult
  createBucket : String → Option String
  uploadFile : FsPath → String → String → Option String
  downloadFile : String → String → FsPath → Option String

/-- The fields of a `DVCWorker` instance (the S3 client is represented by
the `Env` oracle; the logger by `Event.log`). -/
structure DVCWorker where
  dag_id : String
  execution_id : String
  minio_bucket : String
  minio_url : String
  access_key : String
  secret_key : String
  git_repo_path : FsPath
deriving Repr, DecidableEq

/-- `self.remote_name = f"remote_{dag_id}_{execution_id}"`. -/
def DVCWorker.remote_name (w : DVCWorker) : String :=
  "remote_" ++ w.dag_id ++ "_" ++ w.execution_id

/-- `str(e)` of a `subprocess.CalledProcessError`. -/
def cpeStr (cmd : List String) (returncode : Int) : String :=
  "Command '" ++ String.intercalate " " cmd ++ "' returned non-zero exit status "
    ++ toString returncode ++ "."

/-- `str(e)` of a raised Python exception. -/
def PyExn.str : PyExn → String
  | .fileNotFound msg => msg
  | .calledProcessError cmd returncode _ _ => cpeStr cmd returncode
  | .otherError msg => msg

/-- One `subprocess.run(cmd, check=True, cwd=cwd)`: on a non-zero exit the
`CalledProcessError` is raised. -/
def runChecked (env : Env) (cmd : List String) (cwd : FsPath) :
    List Event × Except PyExn Unit :=
  match env.run cmd cwd with
  | .ok _ _ => ([Event.run cmd cwd], Except.ok ())
  | .err rc out errS => ([Event.run cmd cwd], Except.error (.calledProcessError cmd rc out errS))

/-- A sequence of `subprocess.run(..., check=True, cwd=cwd)` lines: stops at
the first raising call. -/
def runCheckedSeq (env : Env) (cmds : List (List String)) (cwd : FsPath) :
    List Event × Except PyExn Unit :=
  match cmds with
  | [] => ([], Except.ok ())
  | c :: rest =>
    let r := runChecked env c cwd
    match r.2 with
    | Except.error e => (r.1, Except.error e)
    | Except.ok _ =>
      let r2 := runCheckedSeq env rest cwd
      (r.1 ++ r2.1, r2.2)

/-- `DVCWorker.create_directory_if_not_exists`. -/
def create_directory_if_not_exists (env : Env) (path : FsPath) : List Event :=
  if env.pathExists path then
    [Event.log ("Directory " ++ pathStr path ++ " already exists.")]
  else
    [Event.log ("Directory " ++ pathStr path ++ " does not exist. Creating it."),
     Event.mkdir path,
     Event.log ("Directory " ++ pathStr path ++ " created.")]

/-- `DVCWorker.ensure_git_repository`: initializes a git repository at
`git_repo_path` when `.git` is absent; the `git init` call is `check=True`
with no handler, so its failure is raised. -/
def DVCWorker.ensure_git_repository (w : DVCWorker) (env : Env) :
    List Event × Except PyExn Unit :=
  let git_dir := w.git_repo_path ++ [".git"]
  if env.pathExists git_dir then
    ([Event.log ("Directory " ++ pathStr w.git_repo_path ++ " is already a Git repository.")],
     Except.ok ())
  else
    let r := runChecked env ["git", "init"] w.git_repo_path
    let tr := [Event.log ("Directory " ++ pathStr w.git_repo_path
        ++ " is not a Git repository. Initializing a new Git repository.")] ++ r.1
    match r.2 with
    | Except.error e => (tr, Except.error e)
    | Except.ok _ =>
        (tr ++ [Event.log ("Initialized empty Git repository in " ++ pathStr w.git_repo_path)],
         Except.ok ())

/-- `DVCWorker.bucket_exists`: `head_bucket` success gives `true`,
`NoSuchBucket` gives `false`, any other exception is logged and gives
`false`; the method never raises (its return type has no exception
channel). -/
def DVCWorker.bucket_exists (w : DVCWorker) (env : Env) (bucket_name : String) :
    List Event × Bool :=
  let _ := w
  match env.headBucket bucket_name with
  | .ok => ([Event.s3HeadBucket bucket_name], true)
  | .noSuchBucket => ([Event.s3HeadBucket bucket_name], false)
  | .otherExn msg =>
      ([Event.s3HeadBucket bucket_name,
        Event.log ("Error checking bucket existence: " ++ msg)], false)

/-- `DVCWorker.configure_remote`: lazily creates the bucket, then issues the
five `dvc remote` configuration commands (`check=True` each); every
exception is caught and turned into an error status dictionary. -/
def DVCWorker.configure_remote (w : DVCWorker) (env : Env) (project_path : FsPath)
    (appointed_bucket : String) (service_type : String) : List Event × StatusDict :=
  let b := w.bucket_exists env appointed_bucket
  let c : List Event × Except PyExn Unit :=
    if b.2 then
      ([Event.log ("Bucket " ++ appointed_bucket ++ " already exists")], Except.ok ())
    else
      match env.createBucket appointed_bucket with
      | some msg =>
          ([Event.s3CreateBucket appointed_bucket], Except.error (.otherError msg))
      | none =>
          ([Event.s3CreateBucket appointed_bucket,
            Event.log ("Bucket " ++ appointed_bucket ++ " created")], Except.ok ())
  match c.2 with
  | Except.error e =>
      (b.1 ++ c.1, { status := "error", message := some e.str })
  | Except.ok _ =>
    let remote_path := "s3://" ++ appointed_bucket ++ "/" ++ w.dag_id ++ "_"
        ++ w.execution_id ++ "/" ++ service_type ++ "/dataset"
    let cmds := [["dvc", "remote", "add", "-d", w.remote_name, remote_path, "--force"],
                 ["dvc", "remote", "modify", w.remote_name, "endpointurl", w.minio_url],
                 ["dvc", "remote", "modify", w.remote_name, "access_key_id", w.access_key],
                 ["dvc", "remote", "modify", w.remote_name, "secret_access_key", w.secret_key],
                 ["dvc", "remote", "modify", w.remote_name, "use_ssl", "false"]]
    let r := runCheckedSeq env cmds project_path
    match r.2 with
    | Except.error e =>
        (b.1 ++ c.1 ++ r.1, { status := "error", message := some e.str })
    | Except.ok _ =>
        (b.1 ++ c.1 ++ r.1
           ++ [Event.log ("Configured MinIO " ++ remote_path
                ++ " as remote storage for DVC at " ++ pathStr project_path)],
         { status := "success",
           message := some "DVC initialized and MinIO remote configured successfully." })

/-- `DVCWorker.initialize_dvc`: `dvc init --no-scm` when `.dvc` is absent
(`check=True`, unhandled, so its failure is raised), then
`ensure_git_repository`, then `configure_remote` whose status dictionary is
returned. -/
def DVCWorker.initialize_dvc (w : DVCWorker) (env : Env) (dvc_repo_path : FsPath)
    (stage_type : String) : List Event × Except PyExn StatusDict :=
  let dvc_path := dvc_repo_path ++ [".dvc"]
  let service_type := stage_type
  let i : List Event × Except PyExn Unit :=
    if env.pathExists dvc_path then ([], Except.ok ())
    else
      let r := runChecked env ["dvc", "init", "--no-scm"] dvc_repo_path
      ([Event.log ("Initializing DVC repository at " ++ pathStr dvc_repo_path)] ++ r.1, r.2)
  match i.2 with
  | Except.error e => (i.1, Except.error e)
  | Except.ok _ =>
    let g := w.ensure_git_repository env
    match g.2 with
    | Except.error e => (i.1 ++ g.1, Except.error e)
    | Except.ok _ =>
      let appointed_data_bucket := w.minio_bucket
      let c := w.configure_remote env dvc_repo_path appointed_data_bucket service_type
      (i.1 ++ g.1 ++ c.1, Except.ok c.2)

/-- `DVCWorker.ensure_dvc_repository`: when `folder_path / ".dvc"` exists,
the method body is skipped entirely; otherwise it initializes the folder as
a DVC repository (the returned status dictionary of `initialize_dvc` is
discarded). -/
def DVCWorker.ensure_dvc_repository (w : DVCWorker) (env : Env) (folder_path : FsPath)
    (stage_type : String) : List Event × Except PyExn Unit :=
  let dvc_dir := folder_path ++ [".dvc"]
  if env.pathExists dvc_dir then ([], Except.ok ())
  else
    let i := w.initialize_dvc env folder_path stage_type
    let tr := [Event.log ("Directory " ++ pathStr folder_path
        ++ " is not a DVC repository. Initializing a new DVC repository with --no-scm.")] ++ i.1
    match i.2 with
    | Except.error e => (tr, Except.error e)
    | Except.ok _ =>
        (tr ++ [Event.log ("Initialized empty DVC repository in " ++ pathStr folder_path
          ++ " with --no-scm")], Except.ok ())

/-- `DVCWorker.git_add_commit_and_push`: `git add .`, then
`git status --porcelain`; when the stripped status output is empty it
returns success without invoking `git commit`, otherwise it commits with
the supplied message.  All three calls use `self.git_repo_path` as working
directory (the `project_path` parameter is unused in the source);
`CalledProcessError` is caught and turned into an error status
dictionary. -/
def DVCWorker.git_add_commit_and_push (w : DVCWorker) (env : Env) (project_path : FsPath)
    (message : String) : List Event × StatusDict :=
  let _ := project_path
  let cwd := w.git_repo_path
  match env.run ["git", "add", "."] cwd with
  | .err rc _ _ =>
      ([Event.run ["git", "add", "."] cwd,
        Event.log ("Error committing (and pushing) to Git: " ++ cpeStr ["git", "add", "."] rc)],
       { status := "error", message := some (cpeStr ["git", "add", "."] rc) })
  | .ok _ _ =>
    match env.run ["git", "status", "--porcelain"] cwd with
    | .err rc _ _ =>
        ([Event.run ["git", "add", "."] cwd,
          Event.run ["git", "status", "--porcelain"] cwd,
          Event.log ("Error committing (and pushing) to Git: "
            ++ cpeStr ["git", "status", "--porcelain"] rc)],
         { status := "error", message := some (cpeStr ["git", "status", "--porcelain"] rc) })
    | .ok out _ =>
      if out.trim = "" then
        ([Event.run ["git", "add", "."] cwd,
          Event.run ["git", "status", "--porcelain"] cwd,
          Event.log "No changes to commit in Git repository."],
         { status := "success", message := some "No changes to commit in Git repository." })
      else
        match env.run ["git", "commit", "-m", message] cwd with
        | .err rc _ _ =>
            ([Event.run ["git", "add", "."] cwd,
              Event.run ["git", "status", "--porcelain"] cwd,
              Event.run ["git", "commit", "-m", message] cwd,
              Event.log ("Error committing (and pushing) to Git: "
                ++ cpeStr ["git", "commit", "-m", message] rc)],
             { status := "error", message := some (cpeStr ["git", "commit", "-m", message] rc) })
        | .ok _ _ =>
            ([Event.run ["git", "add", "."] cwd,
              Event.run ["git", "status", "--porcelain"] cwd,
              Event.run ["git", "commit", "-m", message] cwd,
              Event.log "Committed and (optionally) pushed DVC changes to Git repository."],
             { status := "success",
               message := some "Changes committed (and optionally pushed) to Git repository." })

/-- `DVCWorker.add`: raises `FileNotFoundError` when `folder_path` is
missing; runs `dvc add <folder_path>` with the parent directory as working
directory (`CalledProcessError` caught into an error dictionary); when the
generated `{folder_name}.dvc` file is absent returns an error dictionary
without copying or committing; otherwise copies the `.dvc` file into the
archive folder (a raised copy error propagates — it is no
`CalledProcessError`), invokes `git_add_commit_and_push` WITHOUT inspecting
its returned status, and returns the success dictionary. -/
def DVCWorker.add (w : DVCWorker) (env : Env) (folder_path : FsPath)
    (folder_name : String) (stage_type : String) :
    List Event × Except PyExn StatusDict :=
  if env.pathExists folder_path = false then
    ([], Except.error (.fileNotFound ("The folder '" ++ pathStr folder_path
        ++ "' does not exist.")))
  else
    let cmdAdd := ["dvc", "add", pathStr folder_path]
    match env.run cmdAdd folder_path.dropLast with
    | .err rc _ _ =>
        ([Event.run cmdAdd folder_path.dropLast,
          Event.log ("Error adding folder to DVC: " ++ cpeStr cmdAdd rc)],
         Except.ok { status := "error", message := some (cpeStr cmdAdd rc) })
    | .ok _ _ =>
      let tr0 := [Event.run cmdAdd folder_path.dropLast,
                  Event.log ("Added " ++ folder_name ++ " to DVC tracking.")]
      let dvc_file := folder_path.dropLast ++ [folder_name ++ ".dvc"]
      if env.pathExists dvc_file then
        let appointed_dvc_file_storage_folder :=
          w.git_repo_path ++ [stage_type, stage_type ++ "_" ++ folder_name]
        let trMk := create_directory_if_not_exists env appointed_dvc_file_storage_folder
        match env.copyFile dvc_file appointed_dvc_file_storage_folder with
        | some msg =>
            (tr0 ++ trMk ++ [Event.copyFile dvc_file appointed_dvc_file_storage_folder],
             Except.error (.otherError msg))
        | none =>
          let g := w.git_add_commit_and_push env w.git_repo_path
              ("Add " ++ folder_name ++ " dataset DVC file")
          (tr0 ++ trMk ++ [Event.copyFile dvc_file appointed_dvc_file_storage_folder] ++ g.1,
           Except.ok
             { status := "success",
               message := some ("Folder " ++ folder_name
                 ++ " added to DVC tracking and DVC file committed to Git.") })
      else
        (tr0 ++ [Event.log (".dvc file not found for " ++ folder_name
            ++ ". Expected at " ++ pathStr dvc_file ++ ".")],
         Except.ok
           { status := "error",
             message := some (".dvc file not found for " ++ folder_name ++ ".") })

/-- `DVCWorker.push`: `dvc push` in the parent of `folder_path`, capturing
output; both outcomes are returned as status dictionaries carrying the
captured stdout/stderr. -/
def DVCWorker.push (w : DVCWorker) (env : Env) (folder_path : FsPath) :
    List Event × StatusDict :=
  let _ := w
  let root_folder_path := folder_path.dropLast
  match env.run ["dvc", "push"] root_folder_path with
  | .ok out errS =>
      ([Event.run ["dvc", "push"] root_folder_path,
        Event.log "Pushed data to remote storage."],
       { status := "success", stdout := some out, stderr := some errS })
  | .err rc out errS =>
      ([Event.run ["dvc", "push"] root_folder_path,
        Event.log ("Error pushing data to remote storage: Command 'dvc push' returned non-zero exit status "
          ++ toString rc),
        Event.log ("Detailed error output:\nSTDOUT:\n" ++ out ++ "\nSTDERR:\n" ++ errS)],
       { status := "error", stdout := some out, stderr := some errS })

/-- The object-store key `upload_dvc_file_to_minio` uploads the manifest
under: `f"{self.dag_id}_{self.execution_id}/{stage_type}/dvc_files/{dvc_file_path.name}"`. -/
def DVCWorker.upload_target_path (w : DVCWorker) (stage_type : String) (fname : String) :
    String :=
  w.dag_id ++ "_" ++ w.execution_id ++ "/" ++ stage_type ++ "/dvc_files/" ++ fname

/-- `DVCWorker.upload_dvc_file_to_minio`: lazily creates the bucket, then
uploads the `.dvc` file to `upload_target_path`; every exception is caught
into an error status dictionary. -/
def DVCWorker.upload_dvc_file_to_minio (w : DVCWorker) (env : Env) (dvc_file_path : FsPath)
    (stage_type : String) : List Event × StatusDict :=
  let b := w.bucket_exists env w.minio_bucket
  let c : List Event × Except PyExn Unit :=
    if b.2 then ([], Except.ok ())
    else
      match env.createBucket w.minio_bucket with
      | some msg =>
          ([Event.log ("Bucket '" ++ w.minio_bucket ++ "' does not exist. Creating it."),
            Event.s3CreateBucket w.minio_bucket], Except.error (.otherError msg))
      | none =>
          ([Event.log ("Bucket '" ++ w.minio_bucket ++ "' does not exist. Creating it."),
            Event.s3CreateBucket w.minio_bucket,
            Event.log ("Bucket '" ++ w.minio_bucket ++ "' created.")], Except.ok ())
  match c.2 with
  | Except.error e =>
      (b.1 ++ c.1 ++ [Event.log ("Failed to upload .dvc file to MinIO: " ++ e.str)],
       { status := "error", message := some e.str })
  | Except.ok _ =>
    let target_path := w.upload_target_path stage_type (dvc_file_path.getLastD "")
    match env.uploadFile dvc_file_path w.minio_bucket target_path with
    | some msg =>
        (b.1 ++ c.1 ++ [Event.s3Upload dvc_file_path w.minio_bucket target_path,
          Event.log ("Failed to upload .dvc file to MinIO: " ++ msg)],
         { status := "error", message := some msg })
    | none =>
        (b.1 ++ c.1 ++ [Event.s3Upload dvc_file_path w.minio_bucket target_path,
          Event.log ("Uploaded .dvc file to MinIO at " ++ w.minio_bucket ++ "/" ++ target_path)],
         { status := "success",
           message := some ("Uploaded .dvc file to MinIO at " ++ w.minio_bucket
             ++ "/" ++ target_path) })

/-- `DVCWorker.add_and_push_data` (publish): raises `FileNotFoundError` when
the folder is missing; otherwise `add`, then `push`, then
`upload_dvc_file_to_minio`, returning the first error dictionary unchanged,
and a fresh success dictionary when all three succeed. -/
def DVCWorker.add_and_push_data (w : DVCWorker) (env : Env) (folder_path : FsPath)
    (folder_name : String) (stage_type : String) :
    List Event × Except PyExn StatusDict :=
  if env.pathExists folder_path = false then
    ([], Except.error (.fileNotFound ("The folder '" ++ pathStr folder_path
        ++ "' does not exist.")))
  else
    let a := w.add env folder_path folder_name stage_type
    match a.2 with
    | Except.error e => (a.1, Except.error e)
    | Except.ok add_result =>
      if add_result.status = "error" then (a.1, Except.ok add_result)
      else
        let p := w.push env folder_path
        if p.2.status = "error" then (a.1 ++ p.1, Except.ok p.2)
        else
          let dvc_file := folder_path.dropLast ++ [folder_name ++ ".dvc"]
          let u := w.upload_dvc_file_to_minio env dvc_file stage_type
          if u.2.status = "error" then (a.1 ++ p.1 ++ u.1, Except.ok u.2)
          else
            (a.1 ++ p.1 ++ u.1,
             Except.ok
               { status := "success",
                 message := some "Data added to DVC, pushed to remote storage, and .dvc file uploaded to MinIO." })

/-- The object-store key the download step of `pull` fetches the manifest
from: `f"{self.dag_id}_{self.execution_id}/{stage_type}/dvc_files/{dvc_filename}"`. -/
def DVCWorker.pull_dvc_file_key (w : DVCWorker) (stage_type : String) (dvc_filename : String) :
    String :=
  w.dag_id ++ "_" ++ w.execution_id ++ "/" ++ stage_type ++ "/dvc_files/" ++ dvc_filename

/-- `DVCWorker.pull` (retrieve): the whole body sits in a `try` whose
`except FileNotFoundError` / `except Exception` handlers return error
status dictionaries, so the method never raises.  A missing destination
folder raises `FileNotFoundError` internally, which the method's own
handler catches into an error dictionary.  Then `ensure_dvc_repository`,
then the manifest download from the object store (its own inner handler
catches any download exception into an error dictionary, so `dvc pull` is
not reached), then `dvc pull <manifest>` with captured output. -/
def DVCWorker.pull (w : DVCWorker) (env : Env) (stage_type : String)
    (dvc_filename : String) (folder_path : FsPath) : List Event × StatusDict :=
  if env.pathExists folder_path = false then
    ([Event.log ("File not found: Destination folder " ++ pathStr folder_path
        ++ " does not exist.")],
     { status := "error",
       message := some ("Destination folder " ++ pathStr folder_path ++ " does not exist.") })
  else
    let e0 := w.ensure_dvc_repository env folder_path stage_type
    match e0.2 with
    | Except.error e =>
      (match e with
       | .fileNotFound m =>
           (e0.1 ++ [Event.log ("File not found: " ++ m)],
            { status := "error", message := some m })
       | _ =>
           (e0.1 ++ [Event.log ("Error during pull operation: " ++ e.str)],
            { status := "error", message := some e.str }))
    | Except.ok _ =>
      let dvc_file_key := w.pull_dvc_file_key stage_type dvc_filename
      let local_dvc_file_path := folder_path ++ [dvc_filename]
      let trD := [Event.log ("Downloading .dvc file from MinIO: " ++ dvc_file_key
          ++ " to " ++ pathStr local_dvc_file_path),
        Event.s3Download w.minio_bucket dvc_file_key local_dvc_file_path]
      match env.downloadFile w.minio_bucket dvc_file_key local_dvc_file_path with
      | some msg =>
          (e0.1 ++ trD ++ [Event.log ("Failed to download .dvc file from MinIO: " ++ msg)],
           { status := "error",
             message := some ("Failed to download .dvc file from MinIO: " ++ msg) })
      | none =>
        let cmdPull := ["dvc", "pull", pathStr local_dvc_file_path]
        match env.run cmdPull folder_path with
        | .ok out errS =>
            (e0.1 ++ trD ++ [Event.log ("Downloaded " ++ dvc_filename ++ " to "
                ++ pathStr local_dvc_file_path),
              Event.run cmdPull folder_path,
              Event.log ("Pulled data from remote storage for " ++ dvc_filename ++ ".")],
             { status := "success", stdout := some out, stderr := some errS })
        | .err rc out errS =>
            (e0.1 ++ trD ++ [Event.log ("Downloaded " ++ dvc_filename ++ " to "
                ++ pathStr local_dvc_file_path),
              Event.run cmdPull folder_path,
              Event.log ("Error pulling data from remote storage: " ++ cpeStr cmdPull rc)],
             { status := "error", stdout := some out, stderr := some errS })

/-! Predicates on results and on effect traces used by the statements. -/

/-- Whether a possibly-raising operation RETURNED a success status
dictionary (a raised exception is not a returned success). -/
def resultIsSuccess : Except PyExn StatusDict → Bool
  | Except.ok d => d.status == "success"
  | Except.error _ => false

/-- Whether a possibly-raising operation returned at all (rather than
raising an exception to its caller). -/
def resultReturned : Except PyExn StatusDict → Bool
  | Except.ok _ => true
  | Except.error _ => false

/-- The event is the file copy into the manifest archive. -/
def Event.isCopyFile : Event → Bool
  | .copyFile _ _ => true
  | _ => false

/-- The event is an invocation of the `git` binary. -/
def Event.isGitRun : Event → Bool
  | .run cmd _ => cmd.head? == some "git"
  | _ => false

/-- The event is an invocation of `git commit`. -/
def Event.isGitCommitRun : Event → Bool
  | .run cmd _ => cmd.take 2 == ["git", "commit"]
  | _ => false

/-- The event is an invocation of `dvc pull`. -/
def Event.isDvcPullRun : Event → Bool
  | .run cmd _ => cmd.take 2 == ["dvc", "pull"]
  | _ => false

/-- The trace contains no invocation of `dvc pull`. -/
def noPull (tr : List Event) : Bool := tr.all fun ev => !ev.isDvcPullRun

/-! Concrete fixtures used to instantiate the theorems. -/

/-- A concrete worker instance. -/
def wEx : DVCWorker :=
  { dag_id := "P1", execution_id := "R1", minio_bucket := "bkt",
    minio_url := "http://minio.local:9000", access_key := "ak", secret_key := "sk",
    git_repo_path := ["srv", "gitrepo"] }

/-- A concrete artifact folder `/out/stage1_result`. -/
def artifactFolder : FsPath := ["out", "stage1_result"]

/-- An environment where every path exists, every external call succeeds and
`git status --porcelain` reports a pending change. -/
def envAllOk : Env :=
  { pathExists := fun _ => true,
    run := fun _ _ => SubprocResult.ok " M file" "",
    copyFile := fun _ _ => none,
    headBucket := fun _ => HeadBucketResult.ok,
    createBucket := fun _ => none,
    uploadFile := fun _ _ _ => none,
    downloadFile := fun _ _ _ => none }

/-- As `envAllOk`, but no path exists. -/
def envMissing : Env := { envAllOk with pathExists := fun _ => false }

/-- As `envAllOk`, but `git add .` exits non-zero, so the archive commit
step reports an error. -/
def envGitAddFails : Env :=
  { envAllOk with
    run := fun cmd _ =>
      if cmd == ["git", "add", "."] then SubprocResult.err 1 "" ""
      else SubprocResult.ok " M file" "" }

/-- As `envAllOk`, but the only existing path is the artifact folder: the
tracking command exits zero yet the manifest descriptor never appears. -/
def envNoManifest : Env :=
  { envAllOk with pathExists := fun q => q == artifactFolder }

/-- As `envAllOk`, but every object-store download fails (the requested key
does not exist in the remote store). -/
def envNoRemoteKey : Env :=
  { envAllOk with downloadFile := fun _ _ _ => some "404 NoSuchKey" }

/-! Helper lemmas: none of the operations that run before the manifest
download ever invokes `dvc pull`. -/

theorem noPull_append (a b : List Event) : noPull (a ++ b) = (noPull a && noPull b) := by
  simp [noPull, List.all_append]

theorem noPull_cons (e : Event) (tr : List Event) :
    noPull (e :: tr) = (!e.isDvcPullRun && noPull tr) := rfl

theorem noPull_runChecked (env : Env) (c : List String) (cwd : FsPath)
    (h : (c.take 2 == ["dvc", "pull"]) = false) : noPull (runChecked env c cwd).1 = true := by
  unfold runChecked
  cases env.run c cwd <;> simp [noPull, Event.isDvcPullRun, h]

theorem noPull_runCheckedSeq (env : Env) (cwd : FsPath) (cmds : List (List String))
    (h : ∀ c ∈ cmds, (c.take 2 == ["dvc", "pull"]) = false) :
    noPull (runCheckedSeq env cmds cwd).1 = true := by
  induction cmds with
  | nil => rfl
  | cons c rest ih =>
    have hc : (c.take 2 == ["dvc", "pull"]) = false := h c (by simp)
    have hrest : ∀ x ∈ rest, (x.take 2 == ["dvc", "pull"]) = false := by
      intro x hx
      exact h x (by simp [hx])
    unfold runCheckedSeq
    cases hr : (runChecked env c cwd).2 with
    | error e => simp [hr, noPull_runChecked env c cwd hc]
    | ok u => simp [hr, noPull_append, noPull_runChecked env c cwd hc, ih hrest]

theorem noPull_create_directory (env : Env) (p : FsPath) :
    noPull (create_directory_if_not_exists env p) = true := by
  unfold create_directory_if_not_exists
  split <;> rfl

theorem noPull_bucket_exists (w : DVCWorker) (env : Env) (b : String) :
    noPull (w.bucket_exists env b).1 = true := by
  unfold DVCWorker.bucket_exists
  cases env.headBucket b <;> rfl

theorem noPull_nil : noPull ([] : List Event) = true := rfl

theorem isDvcPullRun_log (m : String) : (Event.log m).isDvcPullRun = false := rfl

theorem isDvcPullRun_mkdir (p : FsPath) : (Event.mkdir p).isDvcPullRun = false := rfl

theorem isDvcPullRun_copy (s d : FsPath) : (Event.copyFile s d).isDvcPullRun = false := rfl

theorem isDvcPullRun_head (b : String) : (Event.s3HeadBucket b).isDvcPullRun = false := rfl

theorem isDvcPullRun_create (b : String) : (Event.s3CreateBucket b).isDvcPullRun = false := rfl

theorem isDvcPullRun_upload (l : FsPath) (b k : String) :
    (Event.s3Upload l b k).isDvcPullRun = false := rfl

theorem isDvcPullRun_download (b k : String) (l : FsPath) :
    (Event.s3Download b k l).isDvcPullRun = false := rfl

theorem noPull_ensure_git_repository (w : DVCWorker) (env : Env) :
    noPull (w.ensure_git_repository env).1 = true := by
  unfold DVCWorker.ensure_git_repository
  dsimp only
  split
  · rfl
  · cases hr : (runChecked env ["git", "init"] w.git_repo_path).2 <;>
      simp [hr, noPull_cons, noPull_append, noPull_nil, isDvcPullRun_log,
        noPull_runChecked env ["git", "init"] w.git_repo_path rfl]

theorem noPull_remote_cmds (w : DVCWorker) (env : Env) (pp : FsPath) (rp : String) :
    noPull (runCheckedSeq env
      [["dvc", "remote", "add", "-d", w.remote_name, rp, "--force"],
       ["dvc", "remote", "modify", w.remote_name, "endpointurl", w.minio_url],
       ["dvc", "remote", "modify", w.remote_name, "access_key_id", w.access_key],
       ["dvc", "remote", "modify", w.remote_name, "secret_access_key", w.secret_key],
       ["dvc", "remote", "modify", w.remote_name, "use_ssl", "false"]] pp).1 = true := by
  refine noPull_runCheckedSeq env pp _ ?_
  intro c hc
  simp only [List.mem_cons, List.not_mem_nil, or_false] at hc
  rcases hc with rfl | rfl | rfl | rfl | rfl <;> rfl

theorem noPull_configure_remote (w : DVCWorker) (env : Env) (pp : FsPath) (b st : String) :
    noPull (w.configure_remote env pp b st).1 = true := by
  unfold DVCWorker.configure_remote
  dsimp only
  cases hb : (w.bucket_exists env b).2 <;> simp only [hb, Bool.false_eq_true, if_false, if_true]
  · cases hcr : env.createBucket b <;> simp only [hcr]
    · cases hr : (runCheckedSeq env _ pp).2 <;>
        simp [hr, noPull_cons, noPull_append, noPull_nil, isDvcPullRun_log, isDvcPullRun_create,
          noPull_bucket_exists, noPull_remote_cmds]
    · simp [noPull_cons, noPull_append, noPull_nil, isDvcPullRun_log, isDvcPullRun_create, noPull_bucket_exists]
  · cases hr : (runCheckedSeq env _ pp).2 <;>
      simp [hr, noPull_cons, noPull_append, noPull_nil, isDvcPullRun_log, isDvcPullRun_create,
        noPull_bucket_exists, noPull_remote_cmds]

theorem noPull_initialize_dvc (w : DVCWorker) (env : Env) (p : FsPath) (st : String) :
    noPull (w.initialize_dvc env p st).1 = true := by
  unfold DVCWorker.initialize_dvc
  dsimp only
  have hinit : noPull (runChecked env ["dvc", "init", "--no-scm"] p).1 = true :=
    noPull_runChecked env ["dvc", "init", "--no-scm"] p rfl
  cases hp : env.pathExists (p ++ [".dvc"]) with
  | false =>
    simp only [hp, Bool.false_eq_true, if_false]
    cases hi : (runChecked env ["dvc", "init", "--no-scm"] p).2 with
    | error e => simp [hi, noPull_cons, noPull_append, noPull_nil, isDvcPullRun_log, hinit]
    | ok u =>
      cases hg : (w.ensure_git_repository env).2 <;>
        simp [hi, hg, noPull_cons, noPull_append, noPull_nil, isDvcPullRun_log, hinit,
          noPull_ensure_git_repository, noPull_configure_remote]
  | true =>
    simp only [hp, if_true]
    cases hg : (w.ensure_git_repository env).2 <;>
      simp [hg, noPull_cons, noPull_append, noPull_nil,
        noPull_ensure_git_repository, noPull_configure_remote]

theorem noPull_ensure_dvc_repository (w : DVCWorker) (env : Env) (p : FsPath) (st : String) :
    noPull (w.ensure_dvc_repository env p st).1 = true := by
  unfold DVCWorker.ensure_dvc_repository
  dsimp only
  cases hp : env.pathExists (p ++ [".dvc"]) with
  | false =>
    simp only [hp, Bool.false_eq_true, if_false]
    cases hi : (w.initialize_dvc env p st).2 <;>
      simp [hi, noPull_cons, noPull_append, noPull_nil, isDvcPullRun_log,
        noPull_initialize_dvc]
  | true => simp [hp, noPull_nil]

/-- C9: `bucket_exists` returns false when the store reports the bucket as
not found, true when the head-bucket probe succeeds, and on any other fault
logs the error and returns false (fail-open).  The method's return type
(`List Event × Bool`, no exception channel) shows it never raises to its
caller. -/
theorem C9_bucket_exists_fail_open (w : DVCWorker) (env : Env) (b : String) :
    ((w.bucket_exists env b).2 = true ↔ env.headBucket b = HeadBucketResult.ok) ∧
    (∀ msg, env.headBucket b = HeadBucketResult.otherExn msg →
      (w.bucket_exists env b).2 = false ∧
      Event.log ("Error checking bucket existence: " ++ msg) ∈ (w.bucket_exists env b).1) := by
  cases hb : env.headBucket b <;>
    simp [DVCWorker.bucket_exists, hb]

/-- C10: on a folder that already contains the `.dvc` metadata directory,
`ensure_dvc_repository` performs no action at all: its effect trace is
empty (no subprocess, no object-store call, no configuration change, not
even a log line) and it returns normally. -/
theorem C10_ensure_dvc_repository_noop (w : DVCWorker) (env : Env) (p : FsPath)
    (st : String) (h : env.pathExists (p ++ [".dvc"]) = true) :
    w.ensure_dvc_repository env p st = ([], Except.ok ()) := by
  unfold DVCWorker.ensure_dvc_repository
  simp [h]

/-- C10 witness: concrete instance of `C10_ensure_dvc_repository_noop`. -/
theorem C10_witness : wEx.ensure_dvc_repository envAllOk ["data"] "preprocess" = ([], Except.ok ()) :=
  C10_ensure_dvc_repository_noop wEx envAllOk ["data"] "preprocess" rfl

/-- C5 counterexample: on a non-existent folder, `add` RAISES
`FileNotFoundError` — the result is an exception, not a returned
`NotFoundError` result envelope — with an empty effect trace. -/
theorem C5_counterexample :
    wEx.add envMissing artifactFolder "result" "preprocess" =
      ([], Except.error (PyExn.fileNotFound
        ("The folder '" ++ pathStr artifactFolder ++ "' does not exist."))) := rfl

/-- C5 as amended: on a non-existent folder, `add` raises
`FileNotFoundError` to its caller (rather than returning a result
envelope), and performs no side effects: the effect trace is empty, so no
tracking command is run, nothing is written to the manifest archive, and no
commit is made. -/
theorem C5_add_missing_folder_raises (w : DVCWorker) (env : Env) (p : FsPath)
    (n st : String) (h : env.pathExists p = false) :
    w.add env p n st =
      ([], Except.error (PyExn.fileNotFound
        ("The folder '" ++ pathStr p ++ "' does not exist."))) := by
  unfold DVCWorker.add
  simp [h]

/-- C5 witness: concrete instance of `C5_add_missing_folder_raises`. -/
theorem C5_witness :
    wEx.add envMissing ["absent"] "a" "s" =
      ([], Except.error (PyExn.fileNotFound
        ("The folder '" ++ pathStr ["absent"] ++ "' does not exist."))) :=
  C5_add_missing_folder_raises wEx envMissing ["absent"] "a" "s" rfl

/-- C4 counterexample: the reporting styles are the opposite of the claim.
At a concrete non-existent path, `pull` (retrieve) reports the missing
destination folder by RETURNING an error envelope (its internal
`FileNotFoundError` is caught by its own handler), while `add`
(trackAndArchive) and `add_and_push_data` (publish) report the missing
artifact folder by RAISING `FileNotFoundError` to the caller. -/
theorem C4_counterexample :
    (wEx.pull envMissing "preprocess" "result.dvc" artifactFolder).2 =
      { status := "error",
        message := some ("Destination folder " ++ pathStr artifactFolder
          ++ " does not exist.") } ∧
    (wEx.add envMissing artifactFolder "result" "preprocess").2 =
      Except.error (PyExn.fileNotFound
        ("The folder '" ++ pathStr artifactFolder ++ "' does not exist.")) ∧
    (wEx.add_and_push_data envMissing artifactFolder "result" "preprocess").2 =
      Except.error (PyExn.fileNotFound
        ("The folder '" ++ pathStr artifactFolder ++ "' does not exist.")) :=
  ⟨rfl, rfl, rfl⟩

/-- C4 as amended: a missing artifact folder in `add` (trackAndArchive) and
`add_and_push_data` (publish) is reported by raising an exception
(`FileNotFoundError`) to the caller, and a failure of the manifest copy in
`add` — which catches only `CalledProcessError` — likewise propagates as a
raised exception through `add` and publish; "destination folder missing"
during `pull` (retrieve) is caught internally and reported by returning a
structured error result envelope, as are the other failures of `pull`,
`push`, `upload_dvc_file_to_minio` and `git_add_commit_and_push`, whose
return types carry no exception channel. -/
theorem C4_error_reporting_styles (w : DVCWorker) (env : Env) (p q : FsPath)
    (n st st2 fn : String) :
    (env.pathExists p = false →
      (w.add env p n st).2 = Except.error (PyExn.fileNotFound
        ("The folder '" ++ pathStr p ++ "' does not exist.")) ∧
      (w.add_and_push_data env p n st).2 = Except.error (PyExn.fileNotFound
        ("The folder '" ++ pathStr p ++ "' does not exist."))) ∧
    (∀ msg, env.pathExists p = true →
      (env.run ["dvc", "add", pathStr p] p.dropLast).isOk = true →
      env.pathExists (p.dropLast ++ [n ++ ".dvc"]) = true →
      env.copyFile (p.dropLast ++ [n ++ ".dvc"])
        (w.git_repo_path ++ [st, st ++ "_" ++ n]) = some msg →
      (w.add env p n st).2 = Except.error (PyExn.otherError msg) ∧
      (w.add_and_push_data env p n st).2 = Except.error (PyExn.otherError msg)) ∧
    (env.pathExists q = false →
      (w.pull env st2 fn q).2 =
        { status := "error",
          message := some ("Destination folder " ++ pathStr q ++ " does not exist.") }) := by
  refine ⟨?_, ?_, ?_⟩
  · intro h
    constructor
    · simp [DVCWorker.add, h]
    · simp [DVCWorker.add_and_push_data, h]
  · intro msg hex hrun hmf hcp
    have hadd : (w.add env p n st).2 = Except.error (PyExn.otherError msg) := by
      unfold DVCWorker.add
      dsimp only
      cases hr : env.run ["dvc", "add", pathStr p] p.dropLast with
      | err rc out errS => rw [hr] at hrun; exact absurd hrun (by simp [SubprocResult.isOk])
      | ok out errS => simp [hex, hmf, hcp]
    refine ⟨hadd, ?_⟩
    unfold DVCWorker.add_and_push_data
    dsimp only
    simp [hex, hadd]
  · intro h
    simp [DVCWorker.pull, h]

/-- C6: the object-store key under which `upload_dvc_file_to_minio` uploads
a manifest equals the key from which the download step of `pull` fetches
it, namely `{dag_id}_{execution_id}/{stageType}/dvc_files/{manifestFilename}`
(round-trip on the key).  Moreover the two operations really address those
keys: whenever the bucket check passes, the upload emits an `s3Upload`
event at `upload_target_path`, and whenever the destination exists and the
repository setup succeeds, `pull` emits an `s3Download` event at
`pull_dvc_file_key`. -/
theorem C6_upload_download_key_roundtrip (w : DVCWorker) (env : Env)
    (st fn : String) (dfp q : FsPath) :
    (w.upload_target_path st fn = w.pull_dvc_file_key st fn) ∧
    (w.upload_target_path st fn =
      w.dag_id ++ "_" ++ w.execution_id ++ "/" ++ st ++ "/dvc_files/" ++ fn) ∧
    ((w.bucket_exists env w.minio_bucket).2 = true →
      Event.s3Upload dfp w.minio_bucket (w.upload_target_path st (dfp.getLastD ""))
        ∈ (w.upload_dvc_file_to_minio env dfp st).1) ∧
    (env.pathExists q = true → (w.ensure_dvc_repository env q st).2 = Except.ok () →
      Event.s3Download w.minio_bucket (w.pull_dvc_file_key st fn) (q ++ [fn])
        ∈ (w.pull env st fn q).1) := by
  refine ⟨rfl, rfl, ?_, ?_⟩
  · intro hb
    unfold DVCWorker.upload_dvc_file_to_minio
    dsimp only
    simp only [hb, if_true]
    cases hu : env.uploadFile dfp w.minio_bucket (w.upload_target_path st (dfp.getLastD "")) <;>
      simp [hu]
  · intro hq hens
    unfold DVCWorker.pull
    dsimp only
    simp only [hq, Bool.true_eq_false, if_false, hens]
    cases hd : env.downloadFile w.minio_bucket (w.pull_dvc_file_key st fn) (q ++ [fn]) with
    | some msg => simp [hd]
    | none =>
      cases hr : env.run ["dvc", "pull", pathStr (q ++ [fn])] q <;> simp [hd, hr]

/-- C3: when the folder exists, the tracking command (`dvc add`) exits zero,
but the manifest descriptor `{folder_name}.dvc` is absent from the parent
directory afterward, `add` returns the integrity-error envelope
(".dvc file not found ...") and its effect trace contains neither a file
copy into the archive nor any `git` invocation (so no commit step). -/
theorem C3_missing_manifest_integrity_error (w : DVCWorker) (env : Env) (p : FsPath)
    (n st : String)
    (hex : env.pathExists p = true)
    (hadd : (env.run ["dvc", "add", pathStr p] p.dropLast).isOk = true)
    (hmf : env.pathExists (p.dropLast ++ [n ++ ".dvc"]) = false) :
    (w.add env p n st).2 = Except.ok
      { status := "error", message := some (".dvc file not found for " ++ n ++ ".") } ∧
    ((w.add env p n st).1.all fun ev => !ev.isCopyFile && !ev.isGitRun) = true := by
  unfold DVCWorker.add
  dsimp only
  cases hr : env.run ["dvc", "add", pathStr p] p.dropLast with
  | err rc out errS => rw [hr] at hadd; exact absurd hadd (by simp [SubprocResult.isOk])
  | ok out errS =>
    simp [hex, hr, hmf, Event.isCopyFile, Event.isGitRun]

/-- C3 witness: concrete instance of `C3_missing_manifest_integrity_error`
in an environment where only the artifact folder exists. -/
theorem C3_witness :
    (wEx.add envNoManifest artifactFolder "result" "preprocess").2 = Except.ok
      { status := "error", message := some (".dvc file not found for " ++ "result" ++ ".") } ∧
    ((wEx.add envNoManifest artifactFolder "result" "preprocess").1.all
      fun ev => !ev.isCopyFile && !ev.isGitRun) = true :=
  C3_missing_manifest_integrity_error wEx envNoManifest artifactFolder "result" "preprocess"
    rfl rfl rfl

/-- C8: `git_add_commit_and_push` first stages all changes (its trace always
begins with `git add .`); when staging and the status query succeed and the
stripped `git status --porcelain` output is empty, it returns success with
the "nothing to commit" message and its trace contains no `git commit`
invocation; when the stripped output is non-empty, it invokes
`git commit -m <message>` with the supplied message. -/
theorem C8_commit_step_contract (w : DVCWorker) (env : Env) (pp : FsPath) (m : String) :
    ((w.git_add_commit_and_push env pp m).1.head? =
      some (Event.run ["git", "add", "."] w.git_repo_path)) ∧
    (∀ out err, env.run ["git", "add", "."] w.git_repo_path = SubprocResult.ok out err →
      ∀ out2 err2,
        env.run ["git", "status", "--porcelain"] w.git_repo_path = SubprocResult.ok out2 err2 →
        (out2.trim = "" →
          (w.git_add_commit_and_push env pp m).2 =
            { status := "success", message := some "No changes to commit in Git repository." } ∧
          ((w.git_add_commit_and_push env pp m).1.all fun ev => !ev.isGitCommitRun) = true) ∧
        (out2.trim ≠ "" →
          Event.run ["git", "commit", "-m", m] w.git_repo_path
            ∈ (w.git_add_commit_and_push env pp m).1)) := by
  constructor
  · unfold DVCWorker.git_add_commit_and_push
    dsimp only
    cases h1 : env.run ["git", "add", "."] w.git_repo_path with
    | err rc out errS => rfl
    | ok out errS =>
      cases h2 : env.run ["git", "status", "--porcelain"] w.git_repo_path with
      | err rc o e => rfl
      | ok o2 e2 =>
        by_cases ht : o2.trim = ""
        · simp [ht]
        · simp only [ht, if_false]
          cases h3 : env.run ["git", "commit", "-m", m] w.git_repo_path <;> rfl
  · intro out err h1 out2 err2 h2
    unfold DVCWorker.git_add_commit_and_push
    dsimp only
    rw [h1, h2]
    constructor
    · intro ht
      simp [ht, Event.isGitCommitRun]
    · intro ht
      simp only [ht, if_false]
      cases h3 : env.run ["git", "commit", "-m", m] w.git_repo_path <;> simp

/-- C2 counterexample: in a concrete environment where the tracking command
succeeds, the manifest exists and the archive copy succeeds but `git add .`
exits non-zero — so the commit step (`git_add_commit_and_push`) reports an
error envelope — `add` nevertheless returns a success result: the claim
"returns success only if the commit step reports success" is false of the
code, which discards the commit step's returned status. -/
theorem C2_counterexample :
    resultIsSuccess (wEx.add envGitAddFails artifactFolder "result" "preprocess").2 = true ∧
    (wEx.git_add_commit_and_push envGitAddFails wEx.git_repo_path
      "Add result dataset DVC file").2.status = "error" := by
  constructor <;> rfl

/-- C2 as amended: `add` returns a success result exactly when the folder
exists, the tracking command exits zero, the manifest descriptor
`{folder_name}.dvc` is present afterward, and the copy into the archive
succeeds; the status envelope the commit step returns is ignored, so a
commit step reporting an error does not prevent the success result (in
particular a no-op commit, which the commit step reports as success, also
yields success). -/
theorem C2_add_success_iff (w : DVCWorker) (env : Env) (p : FsPath) (n st : String) :
    resultIsSuccess (w.add env p n st).2 =
      (env.pathExists p &&
       (env.run ["dvc", "add", pathStr p] p.dropLast).isOk &&
       env.pathExists (p.dropLast ++ [n ++ ".dvc"]) &&
       (env.copyFile (p.dropLast ++ [n ++ ".dvc"])
         (w.git_repo_path ++ [st, st ++ "_" ++ n])).isNone) := by
  unfold DVCWorker.add
  dsimp only
  cases hex : env.pathExists p with
  | false => simp [hex, resultIsSuccess]
  | true =>
    simp only [hex, Bool.true_eq_false, if_false, Bool.true_and]
    cases hr : env.run ["dvc", "add", pathStr p] p.dropLast with
    | err rc out errS => simp [hr, resultIsSuccess, SubprocResult.isOk]
    | ok out errS =>
      simp only [hr, SubprocResult.isOk, Bool.true_and]
      cases hmf : env.pathExists (p.dropLast ++ [n ++ ".dvc"]) with
      | false => simp [hmf, resultIsSuccess]
      | true =>
        simp only [hmf, Bool.true_and]
        cases hcp : env.copyFile (p.dropLast ++ [n ++ ".dvc"])
            (w.git_repo_path ++ [st, st ++ "_" ++ n]) with
        | some msg => simp [hcp, resultIsSuccess]
        | none => simp [hcp, resultIsSuccess]

/-- C7: when the destination folder exists, the repository setup step
succeeds, and the object-store download of the manifest key fails (the
manifest filename does not exist in the remote store), `pull` returns the
storage-error envelope and its whole effect trace contains no `dvc pull`
invocation. -/
theorem C7_pull_missing_remote_key (w : DVCWorker) (env : Env) (st fn : String)
    (q : FsPath) (msg : String)
    (hex : env.pathExists q = true)
    (hens : (w.ensure_dvc_repository env q st).2 = Except.ok ())
    (hdl : env.downloadFile w.minio_bucket (w.pull_dvc_file_key st fn) (q ++ [fn]) = some msg) :
    (w.pull env st fn q).2 =
      { status := "error",
        message := some ("Failed to download .dvc file from MinIO: " ++ msg) } ∧
    noPull (w.pull env st fn q).1 = true := by
  unfold DVCWorker.pull
  dsimp only
  simp only [hex, Bool.true_eq_false, if_false, hens, hdl]
  refine ⟨trivial, ?_⟩
  simp [noPull_append, noPull_cons, noPull_nil, isDvcPullRun_log, isDvcPullRun_download,
    noPull_ensure_dvc_repository]

/-- C7 witness: concrete instance of `C7_pull_missing_remote_key`. -/
theorem C7_witness :
    (wEx.pull envNoRemoteKey "preprocess" "result.dvc" ["dest"]).2 =
      { status := "error",
        message := some ("Failed to download .dvc file from MinIO: " ++ "404 NoSuchKey") } ∧
    noPull (wEx.pull envNoRemoteKey "preprocess" "result.dvc" ["dest"]).1 = true :=
  C7_pull_missing_remote_key wEx envNoRemoteKey "preprocess" "result.dvc" ["dest"]
    "404 NoSuchKey" rfl rfl rfl

/-- C1: `add_and_push_data` (publish) runs `add` (trackAndArchive), then
`push` (syncToRemote), then `upload_dvc_file_to_minio`
(backupManifestRemotely), in that order — its effect trace is the
concatenation of the executed steps' traces — short-circuiting on the first
step whose envelope has error status and returning that step's envelope
unchanged (likewise propagating an exception `add` raises, with no later
step executed), and returning the fixed success envelope when all three
steps succeed. -/
theorem C1_publish_pipeline (w : DVCWorker) (env : Env) (p : FsPath) (n st : String) :
    (∀ e, (w.add env p n st).2 = Except.error e →
      w.add_and_push_data env p n st = ((w.add env p n st).1, Except.error e)) ∧
    (∀ a, (w.add env p n st).2 = Except.ok a → a.status = "error" →
      w.add_and_push_data env p n st = ((w.add env p n st).1, Except.ok a)) ∧
    (∀ a, (w.add env p n st).2 = Except.ok a → a.status ≠ "error" →
      (w.push env p).2.status = "error" →
      w.add_and_push_data env p n st =
        ((w.add env p n st).1 ++ (w.push env p).1, Except.ok (w.push env p).2)) ∧
    (∀ a, (w.add env p n st).2 = Except.ok a → a.status ≠ "error" →
      (w.push env p).2.status ≠ "error" →
      (w.upload_dvc_file_to_minio env (p.dropLast ++ [n ++ ".dvc"]) st).2.status = "error" →
      w.add_and_push_data env p n st =
        ((w.add env p n st).1 ++ (w.push env p).1
           ++ (w.upload_dvc_file_to_minio env (p.dropLast ++ [n ++ ".dvc"]) st).1,
         Except.ok (w.upload_dvc_file_to_minio env (p.dropLast ++ [n ++ ".dvc"]) st).2)) ∧
    (∀ a, (w.add env p n st).2 = Except.ok a → a.status ≠ "error" →
      (w.push env p).2.status ≠ "error" →
      (w.upload_dvc_file_to_minio env (p.dropLast ++ [n ++ ".dvc"]) st).2.status ≠ "error" →
      w.add_and_push_data env p n st =
        ((w.add env p n st).1 ++ (w.push env p).1
           ++ (w.upload_dvc_file_to_minio env (p.dropLast ++ [n ++ ".dvc"]) st).1,
         Except.ok
           { status := "success",
             message := some "Data added to DVC, pushed to remote storage, and .dvc file uploaded to MinIO." })) := by
  by_cases hp : env.pathExists p = false
  · have ha : w.add env p n st =
        ([], Except.error (PyExn.fileNotFound
          ("The folder '" ++ pathStr p ++ "' does not exist."))) := by
      unfold DVCWorker.add
      simp [hp]
    refine ⟨?_, ?_, ?_, ?_, ?_⟩
    · intro e he
      rw [ha] at he
      have h2 : PyExn.fileNotFound ("The folder '" ++ pathStr p ++ "' does not exist.") = e := by
        injection he
      unfold DVCWorker.add_and_push_data
      rw [ha, ← h2]
      simp [hp]
    · intro a he hsa
      rw [ha] at he
      simp at he
    · intro a he hsa hps
      rw [ha] at he
      simp at he
    · intro a he hsa hps hus
      rw [ha] at he
      simp at he
    · intro a he hsa hps hus
      rw [ha] at he
      simp at he
  · have hpt : env.pathExists p = true := by
      revert hp
      cases env.pathExists p <;> simp
    refine ⟨?_, ?_, ?_, ?_, ?_⟩
    · intro e he
      unfold DVCWorker.add_and_push_data
      dsimp only
      simp [hpt, he]
    · intro a he hsa
      unfold DVCWorker.add_and_push_data
      dsimp only
      simp [hpt, he, hsa]
    · intro a he hsa hps
      unfold DVCWorker.add_and_push_data
      dsimp only
      simp [hpt, he, hsa, hps]
    · intro a he hsa hps hus
      unfold DVCWorker.add_and_push_data
      dsimp only
      simp [hpt, he, hsa, hps, hus]
    · intro a he hsa hps hus
      unfold DVCWorker.add_and_push_data
      dsimp only
      simp [hpt, he, hsa, hps, hus]

end DVCSpec
